import Mathlib

/-!
# Verification of the coin-api tool-dispatch server

Shallow embedding of `src/coin_api_mcp/server.py`: the tool registry
(`handle_list_tools`), the per-upstream HTTP client wrappers
(`make_coinmarketcap_request`, `make_defillama_request`,
`make_expand_network_request`) and the dispatcher (`handle_call_tool`).

Modelling conventions:
- A Python JSON value (the result of `response.json()` / input of
  `json.dumps`) is the inductive `Json` below; numbers are modelled as `Int`.
- The incoming `arguments: dict | None` is `Option (List (String × String))`:
  an insertion-ordered association list (Python 3.7+ dicts preserve insertion
  order, which is the order both the filtering loop and `urllib.parse.urlencode`
  iterate in).  Argument values are modelled as strings; the source passes
  values through unmodified and `urlencode` stringifies them.
- The network is an oracle `upstream : String → Option Json` giving, per URL,
  the value the relevant `make_*_request` helper returns (`None` = the
  "no data" sentinel).  The dispatcher also records the list of URLs it
  actually fetched, so "no network call made" is expressible.
- Raised exceptions that escape the handler (`ValueError` for an unknown tool,
  `KeyError` from a `request_data[...]` subscript on a missing key) are the
  `DispatchResult.unsupported` / `DispatchResult.keyError` constructors.
-/

/-- A parsed JSON value, as produced by `response.json()` and consumed by
`json.dumps`.  Numbers are modelled as integers. -/
inductive Json where
  | null : Json
  | bool (b : Bool) : Json
  | num (n : Int) : Json
  | str (s : String) : Json
  | arr (xs : List Json) : Json
  | obj (fields : List (String × Json)) : Json

/-- Python truthiness of a JSON value: `None`, `False`, `0`, `""`, `[]` and
`{}` are falsy; everything else is truthy.  The dispatcher's
`if not listing_data:` tests exactly this. -/
def Json.isTruthy : Json → Bool
  | .null => false
  | .bool b => b
  | .num n => n != 0
  | .str s => s != ""
  | .arr xs => !xs.isEmpty
  | .obj fs => !fs.isEmpty

/-- Lower-case hexadecimal digit, used by `json.dumps` for `\uXXXX` escapes. -/
def hexDigitLower (n : Nat) : Char :=
  if n < 10 then Char.ofNat (48 + n) else Char.ofNat (87 + n)

/-- `\uXXXX` escape of a code unit, as emitted by `json.dumps` with the
default `ensure_ascii=True`. -/
def uEscape (n : Nat) : String :=
  "\\u" ++ String.mk [hexDigitLower (n / 4096 % 16), hexDigitLower (n / 256 % 16),
    hexDigitLower (n / 16 % 16), hexDigitLower (n % 16)]

/-- Escape of one character inside a JSON string literal, following
`json.dumps` with `ensure_ascii=True`: the two-character shorthands for
`\\ \" \b \t \n \f \r`, `\uXXXX` for other control and non-ASCII characters
(surrogate pairs beyond the BMP). -/
def Json.escapeChar (c : Char) : String :=
  if c = '\\' then "\\\\"
  else if c = '"' then "\\\""
  else if c.toNat = 8 then "\\b"
  else if c.toNat = 9 then "\\t"
  else if c.toNat = 10 then "\\n"
  else if c.toNat = 12 then "\\f"
  else if c.toNat = 13 then "\\r"
  else if c.toNat < 32 then uEscape c.toNat
  else if c.toNat < 127 then String.singleton c
  else if c.toNat < 65536 then uEscape c.toNat
  else uEscape (55296 + (c.toNat - 65536) / 1024) ++ uEscape (56320 + (c.toNat - 65536) % 1024)

/-- A JSON string literal, as serialized by `json.dumps`. -/
def Json.dumpStr (s : String) : String :=
  "\"" ++ String.join (s.data.map Json.escapeChar) ++ "\""

mutual

/-- `json.dumps` with its default options: separators `", "` and `": "`,
`ensure_ascii=True`. -/
def Json.dumps : Json → String
  | .null => "null"
  | .bool true => "true"
  | .bool false => "false"
  | .num n => toString n
  | .str s => Json.dumpStr s
  | .arr xs => "[" ++ Json.dumpsList xs ++ "]"
  | .obj fs => "\x7b" ++ Json.dumpsFields fs ++ "\x7d"

/-- Comma-separated serialization of the elements of a JSON array. -/
def Json.dumpsList : List Json → String
  | [] => ""
  | [x] => Json.dumps x
  | x :: y :: xs => Json.dumps x ++ ", " ++ Json.dumpsList (y :: xs)

/-- Comma-separated serialization of the members of a JSON object. -/
def Json.dumpsFields : List (String × Json) → String
  | [] => ""
  | [(k, v)] => Json.dumpStr k ++ ": " ++ Json.dumps v
  | (k, v) :: f :: fs => Json.dumpStr k ++ ": " ++ Json.dumps v ++ ", " ++ Json.dumpsFields (f :: fs)

end

/-- The incoming `arguments: dict | None` payload: `none` models Python
`None`, and the list is the dict as an insertion-ordered association list. -/
abbrev Args := Option (List (String × String))

/-- `API_BASE = "pro-api.coinmarketcap.com"` from the source. -/
def API_BASE : String := "pro-api.coinmarketcap.com"

/-- The `condi_keys` whitelist of the `listing-coins` branch. -/
def listingCoinsKeys : List String :=
  ["start", "limit", "price_min", "price_max", "market_cap_min", "market_cap_max",
   "volume_24h_min", "volume_24h_max", "circulating_supply_min", "circulating_supply_max",
   "percent_change_24h_min", "percent_change_24h_max", "convert", "convert_id",
   "sort", "sort_dir", "cryptocurrency_type", "tag", "aux"]

/-- The `condi_keys` whitelist of the `get-coin-info` branch. -/
def getCoinInfoKeys : List String :=
  ["id", "slug", "symbol", "address", "skip_invalid", "aux"]

/-- The `condi_keys` whitelist of the `get-coin-quotes` branch. -/
def getCoinQuotesKeys : List String :=
  ["id", "slug", "symbol", "convert", "convert_id", "aux", "skip_invalid"]

/-- The `condi_keys` whitelist of the `get-protocol-tvl` branch. -/
def getProtocolTvlKeys : List String := ["protocol"]

/-- The `condi_keys` whitelist of the `get-apr` branch. -/
def getAprKeys : List String := ["liquidStakingId"]

/-- The filtering loop shared by all parameterised branches:
`request_data = {}`; if `arguments is not None`, copy over every key of
`arguments` (in insertion order) that is in `condi_keys`. -/
def filterArgs (condi : List String) (arguments : Args) : List (String × String) :=
  match arguments with
  | none => []
  | some args => args.filter (fun kv => condi.contains kv.1)

/-- Python dict subscript `d[k]` on the filtered `request_data`: `some` of the
first value bound to `k`, or `none` when the subscript would raise `KeyError`. -/
def dictGet (d : List (String × String)) (k : String) : Option String :=
  (d.find? (fun kv => kv.1 = k)).map (fun kv => kv.2)

/-- Upper-case hexadecimal digit, as used by `urllib.parse.quote` for
percent escapes. -/
def hexDigitUpper (n : Nat) : Char :=
  if n < 10 then Char.ofNat (48 + n) else Char.ofNat (55 + n)

/-- The always-safe bytes of `urllib.parse.quote_plus` (with the default
`safe` set of `urlencode`): ASCII letters, digits, and `_ . - ~`. -/
def safeByte (b : Nat) : Bool :=
  (48 ≤ b && b ≤ 57) || (65 ≤ b && b ≤ 90) || (97 ≤ b && b ≤ 122) ||
    b == 45 || b == 46 || b == 95 || b == 126

/-- Encoding of one byte under `urllib.parse.quote_plus`: safe bytes pass
through, the space byte becomes `+`, every other byte becomes `%XX` with
upper-case hex. -/
def quoteByte (b : Nat) : List Char :=
  if safeByte b then [Char.ofNat b]
  else if b = 32 then ['+']
  else ['%', hexDigitUpper (b / 16), hexDigitUpper (b % 16)]

/-- `urllib.parse.quote_plus` over a byte string (a Python `str` is encoded
byte-by-byte over its UTF-8 bytes). -/
def quotePlus (bs : List Nat) : List Char :=
  match bs with
  | [] => []
  | b :: rest => quoteByte b ++ quotePlus rest

/-- UTF-8 encoding of one character, as a list of byte values. -/
def utf8Bytes (c : Char) : List Nat :=
  let n := c.toNat
  if n < 128 then [n]
  else if n < 2048 then [192 + n / 64, 128 + n % 64]
  else if n < 65536 then [224 + n / 4096, 128 + n / 64 % 64, 128 + n % 64]
  else [240 + n / 262144, 128 + n / 4096 % 64, 128 + n / 64 % 64, 128 + n % 64]

/-- The UTF-8 byte string of a Python `str`. -/
def strBytes (s : String) : List Nat :=
  s.data.foldr (fun c acc => utf8Bytes c ++ acc) []

/-- `urllib.parse.quote_plus` on a Python string. -/
def quotePlusStr (s : String) : String :=
  String.mk (quotePlus (strBytes s))

/-- Value of a hexadecimal digit character, for percent-decoding. -/
def hexVal (c : Char) : Option Nat :=
  if 48 ≤ c.toNat ∧ c.toNat ≤ 57 then some (c.toNat - 48)
  else if 65 ≤ c.toNat ∧ c.toNat ≤ 70 then some (c.toNat - 55)
  else if 97 ≤ c.toNat ∧ c.toNat ≤ 102 then some (c.toNat - 87)
  else none

/-- Percent-decoding with the query-string `+`-for-space convention
(`urllib.parse.unquote_plus` at byte level): `+` decodes to the space byte,
`%XX` to the byte `XX`, any other character to its own code; returns `none`
on a malformed escape. -/
def unquotePlus : List Char → Option (List Nat)
  | [] => some []
  | c :: rest =>
    if c = '+' then (unquotePlus rest).map (fun t => 32 :: t)
    else if c = '%' then
      match rest with
      | h1 :: h2 :: rest2 =>
        match hexVal h1, hexVal h2 with
        | some a, some b => (unquotePlus rest2).map (fun t => (16 * a + b) :: t)
        | _, _ => none
      | _ => none
    else (unquotePlus rest).map (fun t => c.toNat :: t)

/-- `urllib.parse.urlencode`: the filtered arguments joined as
`k1=v1&k2=v2` in iteration (= insertion) order, keys and values encoded
with `quote_plus`. -/
def urlencode (data : List (String × String)) : String :=
  String.intercalate "&" (data.map (fun kv => quotePlusStr kv.1 ++ "=" ++ quotePlusStr kv.2))

/-- Outcome of one attempted HTTP GET, as seen by the `try` block of the
three `make_*_request` helpers: either `client.get` itself raised (network
failure, timeout, ...), or a response arrived carrying an HTTP status code
and a body on which `response.json()` either succeeds (`some` parsed value)
or raises (`none`).  `response.raise_for_status()` raises on every
non-2xx status. -/
inductive HttpAttempt where
  | transportError : HttpAttempt
  | response (status : Nat) (body : Option Json) : HttpAttempt

/-- The shared `try/except` body of the three client helpers: return the
parsed JSON body of a 2xx response, and map every raised exception
(transport error, `raise_for_status` on a non-2xx status, body-parse
failure) to the `None` sentinel.  A 2xx body that parses to JSON `null`
also yields the sentinel: `response.json()` returns Python `None` for it,
the very value the `except` branch returns, so the caller cannot tell a
null-body success from a failure. -/
def requestOutcome (attempt : HttpAttempt) : Option Json :=
  match attempt with
  | .transportError => none
  | .response status body =>
    if 200 ≤ status ∧ status < 300 then
      match body with
      | some Json.null => none
      | some j => some j
      | none => none
    else none

/-- `make_coinmarketcap_request`: GET against the CoinMarketCap API with the
`X-CMC_PRO_API_KEY` header; any exception is swallowed and becomes `None`. -/
def make_coinmarketcap_request (attempt : HttpAttempt) : Option Json :=
  requestOutcome attempt

/-- `make_defillama_request`: GET against the DeFi Llama API with only an
`accept: */*` header; any exception is swallowed and becomes `None`. -/
def make_defillama_request (attempt : HttpAttempt) : Option Json :=
  requestOutcome attempt

/-- `make_expand_network_request`: GET against the Expand Network API with
the `X-API-Key` header; any exception is swallowed and becomes `None`. -/
def make_expand_network_request (attempt : HttpAttempt) : Option Json :=
  requestOutcome attempt

/-- Whether an attempt is one of the failure cases (transport error, non-2xx
status, or unparsable body). -/
def HttpAttempt.isFailure : HttpAttempt → Bool
  | .transportError => true
  | .response status body => !(200 ≤ status && status < 300) || body.isNone

/-- What `handle_call_tool` produces for the transport: either a list of
`TextContent` texts (normal return), or a raised exception —
`ValueError(f"Unknown tool: ...")` for a name outside the dispatch chain
(`unsupported`), or a `KeyError` escaping from a `request_data[...]`
subscript on a missing key (`keyError`). -/
inductive DispatchResult where
  | content (texts : List String) : DispatchResult
  | unsupported (name : String) : DispatchResult
  | keyError (key : String) : DispatchResult
deriving DecidableEq

/-- `true` exactly on a normal (non-raising) return. -/
def DispatchResult.isContent : DispatchResult → Bool
  | .content _ => true
  | _ => false

/-- `true` exactly on the `ValueError` raised for an unknown tool name. -/
def DispatchResult.isUnsupported : DispatchResult → Bool
  | .unsupported _ => true
  | _ => false

/-- Result of one dispatch, together with the URLs actually fetched from the
upstream (in order), so that "no network call was made" is expressible. -/
structure CallOutcome where
  result : DispatchResult
  requests : List String
deriving DecidableEq

/-- The shared tail of every tool branch:
`data = await make_*_request(client, url)`, then `if not data:` return the
fixed failure text, else return one `TextContent` whose text is
`json.dumps(data)`.  `upstream` is the oracle giving each `make_*_request`
result per URL. -/
def fetchAndWrap (upstream : String → Option Json) (url : String) (failText : String) :
    CallOutcome :=
  match upstream url with
  | none => ⟨.content [failText], [url]⟩
  | some j =>
    if j.isTruthy then ⟨.content [Json.dumps j], [url]⟩
    else ⟨.content [failText], [url]⟩

/-- `handle_call_tool(name, arguments)` from the source: the if/elif chain on
the tool name; each branch filters `arguments` through its `condi_keys`
whitelist, builds the upstream URL, fetches it and wraps the result; the
final `else` raises `ValueError`.  The `get-protocol-tvl` and `get-apr`
branches subscript `request_data["protocol"]` / `request_data['liquidStakingId']`
inside the URL f-string, which raises `KeyError` when the key is absent. -/
def handle_call_tool (upstream : String → Option Json) (name : String) (arguments : Args) :
    CallOutcome :=
  if name = "listing-coins" then
    fetchAndWrap upstream
      ("https://" ++ API_BASE ++ "/v1/cryptocurrency/listings/latest?" ++
        urlencode (filterArgs listingCoinsKeys arguments))
      "Failed to retrieve listing data"
  else if name = "get-coin-info" then
    fetchAndWrap upstream
      ("https://" ++ API_BASE ++ "/v2/cryptocurrency/info?" ++
        urlencode (filterArgs getCoinInfoKeys arguments))
      "Failed to retrieve coin info data"
  else if name = "get-coin-quotes" then
    fetchAndWrap upstream
      ("https://" ++ API_BASE ++ "/v2/cryptocurrency/quotes/latest?" ++
        urlencode (filterArgs getCoinQuotesKeys arguments))
      "Failed to retrieve coin quotes data"
  else if name = "listing-protocols" then
    fetchAndWrap upstream "https://api.llama.fi/protocols"
      "Failed to retrieve protocols data"
  else if name = "get-protocol-tvl" then
    match dictGet (filterArgs getProtocolTvlKeys arguments) "protocol" with
    | none => ⟨.keyError "protocol", []⟩
    | some v =>
      fetchAndWrap upstream ("https://api.llama.fi/tvl/" ++ v)
        "Failed to retrieve protocols tvl data"
  else if name = "get-apr" then
    match dictGet (filterArgs getAprKeys arguments) "liquidStakingId" with
    | none => ⟨.keyError "liquidStakingId", []⟩
    | some v =>
      fetchAndWrap upstream
        ("https://api.expand.network/liquidstaking/getapr?liquidStakingId=" ++ v)
        "Failed to retrieve protocols APR data."
  else ⟨.unsupported name, []⟩

/-- A published tool descriptor, reduced to the two fields the claims need:
the tool's name and the `required` list of its `inputSchema` (the schema
bodies are static declarative data, elided here). -/
structure Tool where
  name : String
  required : List String

/-- `handle_list_tools()` from the source: the discovery listing, in source
order.  Note it contains seven entries, among them `get-protocols`, which
does not occur in `handle_call_tool`'s dispatch chain. -/
def handle_list_tools : List Tool :=
  [⟨"listing-coins", []⟩,
   ⟨"get-coin-info", []⟩,
   ⟨"get-coin-quotes", []⟩,
   ⟨"get-protocols", []⟩,
   ⟨"listing-protocols", []⟩,
   ⟨"get-protocol-tvl", ["protocol"]⟩,
   ⟨"get-apr", ["liquidStakingId"]⟩]

/-- The six tool names the dispatch chain of `handle_call_tool` handles
without raising `ValueError`. -/
def dispatchableNames : List String :=
  ["listing-coins", "get-coin-info", "get-coin-quotes", "listing-protocols",
   "get-protocol-tvl", "get-apr"]

/-- A concrete upstream world in which every request yields the "no data"
sentinel. -/
def noData : String → Option Json := fun _ => none

/-- A concrete upstream world in which every request parses to `true`
(a truthy JSON value). -/
def alwaysTrue : String → Option Json := fun _ => some (Json.bool true)

/-- A concrete upstream world in which every request parses to the empty
JSON object (a falsy value under Python truthiness). -/
def alwaysEmptyObj : String → Option Json := fun _ => some (Json.obj [])

/-- The wrap step always fetches exactly its URL, whatever the upstream
answers. -/
theorem fetchAndWrap_requests (u : String → Option Json) (url failText : String) :
    (fetchAndWrap u url failText).requests = [url] := by
  unfold fetchAndWrap
  cases u url with
  | none => rfl
  | some j =>
    dsimp only
    split <;> rfl

/-- The wrap step always returns content (it never raises). -/
theorem fetchAndWrap_isContent (u : String → Option Json) (url failText : String) :
    (fetchAndWrap u url failText).result.isContent = true := by
  unfold fetchAndWrap
  cases u url with
  | none => rfl
  | some j =>
    dsimp only
    split <;> rfl

/-- On the "no data" sentinel the wrap step returns the fixed failure text. -/
theorem fetchAndWrap_of_none (u : String → Option Json) (url failText : String)
    (h : u url = none) :
    fetchAndWrap u url failText = ⟨.content [failText], [url]⟩ := by
  unfold fetchAndWrap
  rw [h]

/-- On a truthy payload the wrap step returns its full serialization. -/
theorem fetchAndWrap_of_truthy (u : String → Option Json) (url failText : String) (j : Json)
    (h : u url = some j) (hj : j.isTruthy = true) :
    fetchAndWrap u url failText = ⟨.content [Json.dumps j], [url]⟩ := by
  unfold fetchAndWrap
  rw [h]
  simp [hj]

/-- The wrap step never raises the unknown-tool `ValueError`. -/
theorem fetchAndWrap_not_unsupported (u : String → Option Json) (url failText : String) :
    (fetchAndWrap u url failText).result.isUnsupported = false := by
  unfold fetchAndWrap
  cases u url with
  | none => rfl
  | some j =>
    dsimp only
    split <;> rfl

/-- Branch reduction: the `listing-coins` arm of the dispatch chain. -/
theorem handle_listing_coins_eq (u : String → Option Json) (args : Args) :
    handle_call_tool u "listing-coins" args =
      fetchAndWrap u
        ("https://" ++ API_BASE ++ "/v1/cryptocurrency/listings/latest?" ++
          urlencode (filterArgs listingCoinsKeys args))
        "Failed to retrieve listing data" := rfl

/-- Branch reduction: the `get-coin-info` arm of the dispatch chain. -/
theorem handle_coin_info_eq (u : String → Option Json) (args : Args) :
    handle_call_tool u "get-coin-info" args =
      fetchAndWrap u
        ("https://" ++ API_BASE ++ "/v2/cryptocurrency/info?" ++
          urlencode (filterArgs getCoinInfoKeys args))
        "Failed to retrieve coin info data" := rfl

/-- Branch reduction: the `get-coin-quotes` arm of the dispatch chain. -/
theorem handle_coin_quotes_eq (u : String → Option Json) (args : Args) :
    handle_call_tool u "get-coin-quotes" args =
      fetchAndWrap u
        ("https://" ++ API_BASE ++ "/v2/cryptocurrency/quotes/latest?" ++
          urlencode (filterArgs getCoinQuotesKeys args))
        "Failed to retrieve coin quotes data" := rfl

/-- Branch reduction: the `listing-protocols` arm of the dispatch chain. -/
theorem handle_listing_protocols_eq (u : String → Option Json) (args : Args) :
    handle_call_tool u "listing-protocols" args =
      fetchAndWrap u "https://api.llama.fi/protocols"
        "Failed to retrieve protocols data" := rfl

/-- Branch reduction: the `get-protocol-tvl` arm of the dispatch chain. -/
theorem handle_protocol_tvl_eq (u : String → Option Json) (args : Args) :
    handle_call_tool u "get-protocol-tvl" args =
      match dictGet (filterArgs getProtocolTvlKeys args) "protocol" with
      | none => ⟨.keyError "protocol", []⟩
      | some v =>
        fetchAndWrap u ("https://api.llama.fi/tvl/" ++ v)
          "Failed to retrieve protocols tvl data" := rfl

/-- Branch reduction: the `get-apr` arm of the dispatch chain. -/
theorem handle_apr_eq (u : String → Option Json) (args : Args) :
    handle_call_tool u "get-apr" args =
      match dictGet (filterArgs getAprKeys args) "liquidStakingId" with
      | none => ⟨.keyError "liquidStakingId", []⟩
      | some v =>
        fetchAndWrap u
          ("https://api.expand.network/liquidstaking/getapr?liquidStakingId=" ++ v)
          "Failed to retrieve protocols APR data." := rfl

/-- Branch reduction: `get-protocol-tvl` called with exactly its expected key. -/
theorem handle_protocol_tvl_some_eq (u : String → Option Json) (v : String) :
    handle_call_tool u "get-protocol-tvl" (some [("protocol", v)]) =
      fetchAndWrap u ("https://api.llama.fi/tvl/" ++ v)
        "Failed to retrieve protocols tvl data" := rfl

/-- Branch reduction: `get-apr` called with exactly its expected key. -/
theorem handle_apr_some_eq (u : String → Option Json) (v : String) :
    handle_call_tool u "get-apr" (some [("liquidStakingId", v)]) =
      fetchAndWrap u
        ("https://api.expand.network/liquidstaking/getapr?liquidStakingId=" ++ v)
        "Failed to retrieve protocols APR data." := rfl

/-- Claim C8: URL construction matches the published catalogue shapes:
`get-protocol-tvl` with `protocol = "aave"` fetches a URL ending in
`/tvl/aave`, `get-apr` with `liquidStakingId = "123"` fetches a URL ending
in `/liquidstaking/getapr?liquidStakingId=123`, and `listing-protocols`
fetches the fixed `https://api.llama.fi/protocols` URL whatever the
arguments are. -/
theorem url_shapes_match_catalogue :
    ((handle_call_tool noData "get-protocol-tvl"
        (some [("protocol", "aave")])).requests = ["https://api.llama.fi/tvl/aave"])
    ∧ (("/tvl/aave" : String).data.isSuffixOf ("https://api.llama.fi/tvl/aave" : String).data
        = true)
    ∧ ((handle_call_tool noData "get-apr"
        (some [("liquidStakingId", "123")])).requests =
          ["https://api.expand.network/liquidstaking/getapr?liquidStakingId=123"])
    ∧ (("/liquidstaking/getapr?liquidStakingId=123" : String).data.isSuffixOf
        ("https://api.expand.network/liquidstaking/getapr?liquidStakingId=123" : String).data
        = true)
    ∧ (∀ (u : String → Option Json) (args : Args),
        (handle_call_tool u "listing-protocols" args).requests =
          ["https://api.llama.fi/protocols"]) := by
  refine ⟨by decide, by decide, by decide, by decide, ?_⟩
  intro u args
  rw [handle_listing_protocols_eq, fetchAndWrap_requests]

/-- Claim C10: each query-assembly tool (`listing-coins`, `get-coin-info`,
`get-coin-quotes`) called with `None` or with an empty mapping raises no
error: the fetched URL is the tool's fixed base path followed by `?` and an
empty query string, and the upstream request is still attempted. -/
theorem empty_arguments_query_tools_ok (u : String → Option Json) :
    ((handle_call_tool u "listing-coins" none).requests =
        ["https://pro-api.coinmarketcap.com/v1/cryptocurrency/listings/latest?"]
      ∧ (handle_call_tool u "listing-coins" none).result.isContent = true)
    ∧ ((handle_call_tool u "listing-coins" (some [])).requests =
        ["https://pro-api.coinmarketcap.com/v1/cryptocurrency/listings/latest?"]
      ∧ (handle_call_tool u "listing-coins" (some [])).result.isContent = true)
    ∧ ((handle_call_tool u "get-coin-info" none).requests =
        ["https://pro-api.coinmarketcap.com/v2/cryptocurrency/info?"]
      ∧ (handle_call_tool u "get-coin-info" none).result.isContent = true)
    ∧ ((handle_call_tool u "get-coin-info" (some [])).requests =
        ["https://pro-api.coinmarketcap.com/v2/cryptocurrency/info?"]
      ∧ (handle_call_tool u "get-coin-info" (some [])).result.isContent = true)
    ∧ ((handle_call_tool u "get-coin-quotes" none).requests =
        ["https://pro-api.coinmarketcap.com/v2/cryptocurrency/quotes/latest?"]
      ∧ (handle_call_tool u "get-coin-quotes" none).result.isContent = true)
    ∧ ((handle_call_tool u "get-coin-quotes" (some [])).requests =
        ["https://pro-api.coinmarketcap.com/v2/cryptocurrency/quotes/latest?"]
      ∧ (handle_call_tool u "get-coin-quotes" (some [])).result.isContent = true) := by
  exact ⟨⟨fetchAndWrap_requests u _ _, fetchAndWrap_isContent u _ _⟩,
         ⟨fetchAndWrap_requests u _ _, fetchAndWrap_isContent u _ _⟩,
         ⟨fetchAndWrap_requests u _ _, fetchAndWrap_isContent u _ _⟩,
         ⟨fetchAndWrap_requests u _ _, fetchAndWrap_isContent u _ _⟩,
         ⟨fetchAndWrap_requests u _ _, fetchAndWrap_isContent u _ _⟩,
         ⟨fetchAndWrap_requests u _ _, fetchAndWrap_isContent u _ _⟩⟩

/-- Claim C7: URL construction is a deterministic function of the pair
`(toolName, arguments)`: two dispatches with identical tool name and
identical (insertion-ordered) argument mappings fetch identical URL strings,
independently of the upstream's behaviour. -/
theorem url_construction_deterministic (u₁ u₂ : String → Option Json) (name : String)
    (args₁ args₂ : Args) (h : args₁ = args₂) :
    (handle_call_tool u₁ name args₁).requests = (handle_call_tool u₂ name args₂).requests := by
  subst h
  unfold handle_call_tool
  split_ifs with h1 h2 h3 h4 h5 h6
  · rw [fetchAndWrap_requests, fetchAndWrap_requests]
  · rw [fetchAndWrap_requests, fetchAndWrap_requests]
  · rw [fetchAndWrap_requests, fetchAndWrap_requests]
  · rw [fetchAndWrap_requests, fetchAndWrap_requests]
  · cases hd : dictGet (filterArgs getProtocolTvlKeys args₁) "protocol" with
    | none => simp only [hd]
    | some v => simp only [hd, fetchAndWrap_requests]
  · cases hd : dictGet (filterArgs getAprKeys args₁) "liquidStakingId" with
    | none => simp only [hd]
    | some v => simp only [hd, fetchAndWrap_requests]
  · rfl

/-- Witness for C7 at a concrete pair of calls. -/
theorem url_construction_deterministic_witness :
    (handle_call_tool noData "listing-coins" (some [("limit", "5")])).requests =
      (handle_call_tool alwaysTrue "listing-coins" (some [("limit", "5")])).requests :=
  url_construction_deterministic noData alwaysTrue
    "listing-coins" (some [("limit", "5")]) (some [("limit", "5")]) rfl

/-- Counterexample to claim C2: `get-protocols` is returned by the discovery
listing `handle_list_tools`, yet dispatching it raises the unknown-tool
`ValueError` (so "every listed tool can be dispatched" is false). -/
theorem getProtocols_listed_but_unsupported_cex :
    "get-protocols" ∈ handle_list_tools.map Tool.name ∧
    handle_call_tool noData "get-protocols" none =
      ⟨.unsupported "get-protocols", []⟩ := by
  exact ⟨by decide, rfl⟩

/-- Claim C2 as amended: the dispatcher raises the unknown-tool `ValueError`
(with no network call made) exactly when the name is outside the six-name
dispatch chain — which omits the listed tool `get-protocols`. -/
theorem unsupported_iff_not_dispatchable (u : String → Option Json) (name : String)
    (args : Args) :
    ((handle_call_tool u name args).result.isUnsupported = true ↔ name ∉ dispatchableNames)
    ∧ (name ∉ dispatchableNames →
        handle_call_tool u name args = ⟨.unsupported name, []⟩) := by
  unfold handle_call_tool
  split_ifs with h1 h2 h3 h4 h5 h6
  · subst h1
    refine ⟨?_, fun hn => by simp [dispatchableNames] at hn⟩
    simp [fetchAndWrap_not_unsupported, dispatchableNames]
  · subst h2
    refine ⟨?_, fun hn => by simp [dispatchableNames] at hn⟩
    simp [fetchAndWrap_not_unsupported, dispatchableNames]
  · subst h3
    refine ⟨?_, fun hn => by simp [dispatchableNames] at hn⟩
    simp [fetchAndWrap_not_unsupported, dispatchableNames]
  · subst h4
    refine ⟨?_, fun hn => by simp [dispatchableNames] at hn⟩
    simp [fetchAndWrap_not_unsupported, dispatchableNames]
  · subst h5
    refine ⟨?_, fun hn => by simp [dispatchableNames] at hn⟩
    cases hd : dictGet (filterArgs getProtocolTvlKeys args) "protocol" with
    | none => simp [hd, DispatchResult.isUnsupported, dispatchableNames]
    | some v => simp [hd, fetchAndWrap_not_unsupported, dispatchableNames]
  · subst h6
    refine ⟨?_, fun hn => by simp [dispatchableNames] at hn⟩
    cases hd : dictGet (filterArgs getAprKeys args) "liquidStakingId" with
    | none => simp [hd, DispatchResult.isUnsupported, dispatchableNames]
    | some v => simp [hd, fetchAndWrap_not_unsupported, dispatchableNames]
  · have hn : name ∉ dispatchableNames := by
      simp [dispatchableNames, h1, h2, h3, h4, h5, h6]
    exact ⟨by simp [DispatchResult.isUnsupported, hn], fun _ => rfl⟩

/-- Witness for C2 at the unregistered name `foo`: the raise happens and no
URL is fetched. -/
theorem unsupported_iff_not_dispatchable_witness :
    handle_call_tool noData "foo" none = ⟨.unsupported "foo", []⟩ :=
  (unsupported_iff_not_dispatchable noData "foo" none).2 (by decide)

/-- Counterexample to claim C1: `get-protocol-tvl` called with an empty
argument mapping (its schema-required key `protocol` absent) fails locally
with a `KeyError` before any upstream call — no URL is built and nothing is
forwarded, contradicting "the call is forwarded to the upstream".
Likewise for `get-apr` without `liquidStakingId`. -/
theorem missingRequiredKey_not_forwarded_cex :
    handle_call_tool noData "get-protocol-tvl" (some []) =
      ⟨.keyError "protocol", []⟩ ∧
    handle_call_tool noData "get-apr" (some []) =
      ⟨.keyError "liquidStakingId", []⟩ := ⟨rfl, rfl⟩

/-- Claim C1 as amended: when the schema-required key of `get-protocol-tvl`
(`protocol`) or of `get-apr` (`liquidStakingId`) is absent from the argument
mapping, the `request_data[...]` subscript inside the URL f-string raises a
local `KeyError` before the upstream call; no URL is produced and no request
is forwarded. -/
theorem missingRequiredKey_raises_keyError (u : String → Option Json) (args : Args) :
    ((∀ l, args = some l → "protocol" ∉ l.map Prod.fst) →
      handle_call_tool u "get-protocol-tvl" args = ⟨.keyError "protocol", []⟩)
    ∧ ((∀ l, args = some l → "liquidStakingId" ∉ l.map Prod.fst) →
      handle_call_tool u "get-apr" args = ⟨.keyError "liquidStakingId", []⟩) := by
  constructor
  · intro h
    have hd : dictGet (filterArgs getProtocolTvlKeys args) "protocol" = none := by
      cases args with
      | none => rfl
      | some l =>
        have hmem := h l rfl
        simp only [dictGet, filterArgs]
        simp only [Option.map_eq_none', List.find?_eq_none, List.mem_filter,
          decide_eq_true_eq, and_imp, Prod.forall]
        simp
        intro a b hab _ ha
        exact hmem (List.mem_map.mpr ⟨(a, b), hab, ha⟩)
    rw [handle_protocol_tvl_eq, hd]
  · intro h
    have hd : dictGet (filterArgs getAprKeys args) "liquidStakingId" = none := by
      cases args with
      | none => rfl
      | some l =>
        have hmem := h l rfl
        simp only [dictGet, filterArgs]
        simp only [Option.map_eq_none', List.find?_eq_none, List.mem_filter,
          decide_eq_true_eq, and_imp, Prod.forall]
        simp
        intro a b hab _ ha
        exact hmem (List.mem_map.mpr ⟨(a, b), hab, ha⟩)
    rw [handle_apr_eq, hd]

/-- Witness for C1 at a concrete call carrying only an unrelated key. -/
theorem missingRequiredKey_raises_keyError_witness :
    handle_call_tool noData "get-protocol-tvl" (some [("bogus", "x")]) =
      ⟨.keyError "protocol", []⟩ :=
  (missingRequiredKey_raises_keyError noData (some [("bogus", "x")])).1
    (by intro l hl; cases hl; decide)

/-- Counterexample to claim C6: on a "no data" result, `get-apr` returns the
text `Failed to retrieve protocols APR data.` — with a trailing period —
which does not have the form `Failed to retrieve <subject> data` for any of
the six subject labels. -/
theorem getApr_failure_text_trailing_period_cex :
    (handle_call_tool noData "get-apr"
        (some [("liquidStakingId", "123")])).result =
      .content ["Failed to retrieve protocols APR data."] ∧
    "Failed to retrieve protocols APR data." ∉
      (["Failed to retrieve " ++ "listing" ++ " data",
        "Failed to retrieve " ++ "coin info" ++ " data",
        "Failed to retrieve " ++ "coin quotes" ++ " data",
        "Failed to retrieve " ++ "protocols" ++ " data",
        "Failed to retrieve " ++ "protocols tvl" ++ " data",
        "Failed to retrieve " ++ "protocols APR" ++ " data"] : List String) := by
  exact ⟨rfl, by decide⟩

/-- Claim C6 as amended: on a "no data" upstream result the dispatcher
returns exactly one text item with the fixed message
`Failed to retrieve <subject> data` — subjects `listing`, `coin info`,
`coin quotes`, `protocols`, `protocols tvl` — for five of the six tools,
while `get-apr` returns `Failed to retrieve protocols APR data.` with a
trailing period. -/
theorem failure_texts_fixed_form (u : String → Option Json) (hu : ∀ url, u url = none)
    (args : Args) (v : String) :
    (handle_call_tool u "listing-coins" args).result =
      .content ["Failed to retrieve " ++ "listing" ++ " data"]
    ∧ (handle_call_tool u "get-coin-info" args).result =
      .content ["Failed to retrieve " ++ "coin info" ++ " data"]
    ∧ (handle_call_tool u "get-coin-quotes" args).result =
      .content ["Failed to retrieve " ++ "coin quotes" ++ " data"]
    ∧ (handle_call_tool u "listing-protocols" args).result =
      .content ["Failed to retrieve " ++ "protocols" ++ " data"]
    ∧ (handle_call_tool u "get-protocol-tvl" (some [("protocol", v)])).result =
      .content ["Failed to retrieve " ++ "protocols tvl" ++ " data"]
    ∧ (handle_call_tool u "get-apr" (some [("liquidStakingId", v)])).result =
      .content ["Failed to retrieve " ++ "protocols APR" ++ " data" ++ "."] := by
  refine ⟨?_, ?_, ?_, ?_, ?_, ?_⟩
  · rw [handle_listing_coins_eq, fetchAndWrap_of_none u _ _ (hu _)]; rfl
  · rw [handle_coin_info_eq, fetchAndWrap_of_none u _ _ (hu _)]; rfl
  · rw [handle_coin_quotes_eq, fetchAndWrap_of_none u _ _ (hu _)]; rfl
  · rw [handle_listing_protocols_eq, fetchAndWrap_of_none u _ _ (hu _)]; rfl
  · rw [handle_protocol_tvl_some_eq, fetchAndWrap_of_none u _ _ (hu _)]; rfl
  · rw [handle_apr_some_eq, fetchAndWrap_of_none u _ _ (hu _)]; rfl

/-- Witness for C6 with an upstream that always reports "no data". -/
theorem failure_texts_fixed_form_witness :
    (handle_call_tool noData "listing-coins" none).result =
      .content ["Failed to retrieve " ++ "listing" ++ " data"]
    ∧ (handle_call_tool noData "get-coin-info" none).result =
      .content ["Failed to retrieve " ++ "coin info" ++ " data"]
    ∧ (handle_call_tool noData "get-coin-quotes" none).result =
      .content ["Failed to retrieve " ++ "coin quotes" ++ " data"]
    ∧ (handle_call_tool noData "listing-protocols" none).result =
      .content ["Failed to retrieve " ++ "protocols" ++ " data"]
    ∧ (handle_call_tool noData "get-protocol-tvl"
        (some [("protocol", "aave")])).result =
      .content ["Failed to retrieve " ++ "protocols tvl" ++ " data"]
    ∧ (handle_call_tool noData "get-apr"
        (some [("liquidStakingId", "aave")])).result =
      .content ["Failed to retrieve " ++ "protocols APR" ++ " data" ++ "."] :=
  failure_texts_fixed_form noData (fun _ => rfl) none "aave"

/-- Counterexample to claim C3: a parsed-but-falsy payload (here the empty
object) is not serialized back; the dispatcher takes the `if not data:`
failure branch and returns the fixed failure text instead of `json.dumps`
of the payload. -/
theorem falsy_payload_reported_as_failure_cex :
    (handle_call_tool alwaysEmptyObj "listing-protocols" none).result =
      .content ["Failed to retrieve protocols data"] ∧
    "Failed to retrieve protocols data" ≠ Json.dumps (Json.obj []) := by
  refine ⟨rfl, ?_⟩
  have hd : Json.dumps (Json.obj []) = "\x7b\x7d" := by
    simp [Json.dumps, Json.dumpsFields]
  rw [hd]
  decide

/-- Claim C3 as amended: whenever the upstream yields a parsed **truthy**
JSON value, any dispatch that actually performed an upstream request returns
exactly one text item whose text is the `json.dumps` serialization of the
full payload; falsy payloads (`{}`, `[]`, `0`, `""`, `false`) instead take
the failure branch. -/
theorem truthy_payload_serialized_in_full (u : String → Option Json) (name : String)
    (args : Args) (j : Json) (hj : j.isTruthy = true) (hu : ∀ url, u url = some j)
    (hreq : (handle_call_tool u name args).requests ≠ []) :
    (handle_call_tool u name args).result = .content [Json.dumps j] := by
  unfold handle_call_tool at hreq ⊢
  split_ifs at hreq ⊢
  · rw [fetchAndWrap_of_truthy u _ _ j (hu _) hj]
  · rw [fetchAndWrap_of_truthy u _ _ j (hu _) hj]
  · rw [fetchAndWrap_of_truthy u _ _ j (hu _) hj]
  · rw [fetchAndWrap_of_truthy u _ _ j (hu _) hj]
  · cases hd : dictGet (filterArgs getProtocolTvlKeys args) "protocol" with
    | none => simp [hd] at hreq
    | some v => simp only [hd]; rw [fetchAndWrap_of_truthy u _ _ j (hu _) hj]
  · cases hd : dictGet (filterArgs getAprKeys args) "liquidStakingId" with
    | none => simp [hd] at hreq
    | some v => simp only [hd]; rw [fetchAndWrap_of_truthy u _ _ j (hu _) hj]
  · simp at hreq

/-- Witness for C3 on a truthy payload. -/
theorem truthy_payload_serialized_in_full_witness :
    (handle_call_tool alwaysTrue "listing-protocols" none).result =
      .content [Json.dumps (Json.bool true)] :=
  truthy_payload_serialized_in_full alwaysTrue "listing-protocols"
    none (Json.bool true) rfl (fun _ => rfl) (by decide)

/-- Claim C4: filtering keeps exactly the keys present in both the argument
mapping and the whitelist (unknown keys are dropped silently, with no
error), every key that survives filtering is whitelisted, and the URLs the
three query-assembly tools fetch are built from the filtered arguments
only — so a non-whitelisted key never reaches a constructed URL. -/
theorem whitelist_filter_exact (wl : List String) (args : List (String × String))
    (k : String) :
    (k ∈ (filterArgs wl (some args)).map Prod.fst ↔
      k ∈ args.map Prod.fst ∧ k ∈ wl)
    ∧ (∀ kv ∈ filterArgs wl (some args), kv.1 ∈ wl)
    ∧ (∀ u : String → Option Json,
        (handle_call_tool u "listing-coins" (some args)).requests =
          ["https://" ++ API_BASE ++ "/v1/cryptocurrency/listings/latest?" ++
            urlencode (filterArgs listingCoinsKeys (some args))]
        ∧ (handle_call_tool u "get-coin-info" (some args)).requests =
          ["https://" ++ API_BASE ++ "/v2/cryptocurrency/info?" ++
            urlencode (filterArgs getCoinInfoKeys (some args))]
        ∧ (handle_call_tool u "get-coin-quotes" (some args)).requests =
          ["https://" ++ API_BASE ++ "/v2/cryptocurrency/quotes/latest?" ++
            urlencode (filterArgs getCoinQuotesKeys (some args))]) := by
  refine ⟨?_, ?_, ?_⟩
  · simp only [filterArgs, List.mem_map, List.mem_filter]
    constructor
    · rintro ⟨kv, ⟨hkv, hc⟩, rfl⟩
      exact ⟨⟨kv, hkv, rfl⟩, by simpa using hc⟩
    · rintro ⟨⟨kv, hkv, rfl⟩, hwl⟩
      exact ⟨kv, ⟨hkv, by simpa using hwl⟩, rfl⟩
  · intro kv hkv
    have hc := (List.mem_filter.mp hkv).2
    simpa using hc
  · intro u
    exact ⟨fetchAndWrap_requests u _ _, fetchAndWrap_requests u _ _,
      fetchAndWrap_requests u _ _⟩

/-- Witness for C4: an unknown key is absent from the filtered keys even
though it is present in the arguments. -/
theorem whitelist_filter_exact_witness :
    ("bogus" ∈ (filterArgs ["symbol"] (some [("symbol", "BTC"), ("bogus", "x")])).map
        Prod.fst ↔
      "bogus" ∈ ([("symbol", "BTC"), ("bogus", "x")] :
        List (String × String)).map Prod.fst ∧ "bogus" ∈ ["symbol"]) :=
  (whitelist_filter_exact ["symbol"] [("symbol", "BTC"), ("bogus", "x")] "bogus").1

/-- A 2xx response whose body parses to JSON `null` also yields the `None`
sentinel even though the attempt is not a failure: `response.json()` returns
Python `None` there, the same value the `except` branch returns, so at the
caller a null-body success is indistinguishable from a failure. -/
theorem null_body_collapses_to_sentinel :
    make_coinmarketcap_request (HttpAttempt.response 200 (some Json.null)) = none ∧
    (HttpAttempt.response 200 (some Json.null)).isFailure = false := ⟨rfl, rfl⟩

/-- Claim C5: for each of the three upstream client helpers, every failing
attempt — transport error (network failure or timeout), non-2xx HTTP status,
or body-parse failure — yields the `None` sentinel and nothing else, so the
sub-causes are indistinguishable in the result; the helpers are total
functions of the attempt (no exception escapes) and behave identically.
(The sentinel is not exclusive to failures: a 2xx body parsing to JSON
`null` also returns `None`, see `null_body_collapses_to_sentinel`.) -/
theorem client_failures_collapse_to_none (a : HttpAttempt) :
    (a.isFailure = true → make_coinmarketcap_request a = none)
    ∧ make_defillama_request a = make_coinmarketcap_request a
    ∧ make_expand_network_request a = make_coinmarketcap_request a := by
  refine ⟨?_, rfl, rfl⟩
  intro h
  cases a with
  | transportError => rfl
  | response status body =>
    cases body with
    | none =>
      by_cases h2 : 200 ≤ status ∧ status < 300 <;>
        simp [make_coinmarketcap_request, requestOutcome, h2]
    | some j =>
      by_cases h2 : 200 ≤ status ∧ status < 300
      · exfalso
        simp [HttpAttempt.isFailure, h2.1, h2.2] at h
      · simp [make_coinmarketcap_request, requestOutcome, h2]

/-- Witness for C5 at a concrete failing attempt (a transport error). -/
theorem client_failures_collapse_to_none_witness :
    make_coinmarketcap_request HttpAttempt.transportError = none :=
  (client_failures_collapse_to_none HttpAttempt.transportError).1 rfl

set_option maxRecDepth 4096 in
/-- Decoding inverts the upper-case hex digits used by percent escapes. -/
theorem hexVal_hexDigitUpper : ∀ n : Nat, n < 16 → hexVal (hexDigitUpper n) = some n := by
  decide

/-- One-step evaluation of the decoder on a non-empty input. -/
theorem unquotePlus_cons (c : Char) (rest : List Char) :
    unquotePlus (c :: rest) =
      if c = '+' then (unquotePlus rest).map (fun t => 32 :: t)
      else if c = '%' then
        match rest with
        | h1 :: h2 :: rest2 =>
          match hexVal h1, hexVal h2 with
          | some a, some b => (unquotePlus rest2).map (fun t => (16 * a + b) :: t)
          | _, _ => none
        | _ => none
      else (unquotePlus rest).map (fun t => c.toNat :: t) := by
  rw [unquotePlus.eq_def]

set_option maxRecDepth 8192 in
/-- A safe byte is emitted as its own character, which is neither `+` nor
`%` and decodes back to the same byte value. -/
theorem safe_char_facts : ∀ b : Nat, b < 256 → safeByte b = true →
    Char.ofNat b ≠ '+' ∧ Char.ofNat b ≠ '%' ∧ (Char.ofNat b).toNat = b := by
  decide

/-- Decoding consumes the encoding of one byte and recovers it, whatever
follows. -/
theorem unquote_quoteByte (b : Nat) (hb : b < 256) (cs : List Char) :
    unquotePlus (quoteByte b ++ cs) = (unquotePlus cs).map (fun t => b :: t) := by
  by_cases hs : safeByte b
  · obtain ⟨hp, hpc, ht⟩ := safe_char_facts b hb hs
    rw [quoteByte, if_pos hs]
    show unquotePlus (Char.ofNat b :: cs) = _
    rw [unquotePlus_cons, if_neg hp, if_neg hpc, ht]
  · by_cases h32 : b = 32
    · subst h32
      rw [quoteByte, if_neg hs, if_pos rfl]
      show unquotePlus ('+' :: cs) = _
      rw [unquotePlus_cons, if_pos rfl]
    · have hd1 : hexVal (hexDigitUpper (b / 16)) = some (b / 16) :=
        hexVal_hexDigitUpper (b / 16) (by omega)
      have hd2 : hexVal (hexDigitUpper (b % 16)) = some (b % 16) :=
        hexVal_hexDigitUpper (b % 16) (by omega)
      rw [quoteByte, if_neg hs, if_neg h32]
      show unquotePlus ('%' :: hexDigitUpper (b / 16) :: hexDigitUpper (b % 16) :: cs) = _
      rw [unquotePlus_cons, if_neg (by decide : ¬('%' = '+')), if_pos rfl]
      dsimp only
      rw [hd1, hd2]
      dsimp only
      have hbb : 16 * (b / 16) + b % 16 = b := by omega
      simp only [hbb]

/-- Byte-level round trip: percent-decoding a `quote_plus`-encoded byte
string recovers it exactly. -/
theorem unquote_quote_roundtrip (bs : List Nat) (h : ∀ b ∈ bs, b < 256) :
    unquotePlus (quotePlus bs) = some bs := by
  induction bs with
  | nil => rfl
  | cons b rest ih =>
    have hb : b < 256 := h b (List.mem_cons_self _ _)
    have hr := ih (fun x hx => h x (List.mem_cons_of_mem _ hx))
    rw [quotePlus, unquote_quoteByte b hb, hr]
    rfl

set_option maxRecDepth 8192 in
/-- The encoding of a single byte never contains a literal space, `&`, `/`
or `#`. -/
theorem quoteByte_no_reserved : ∀ b : Nat, b < 256 →
    ∀ c ∈ quoteByte b, c ≠ ' ' ∧ c ≠ '&' ∧ c ≠ '/' ∧ c ≠ '#' := by
  decide

/-- The encoding of a whole byte string never contains a literal space,
`&`, `/` or `#`. -/
theorem quotePlus_no_reserved (bs : List Nat) (h : ∀ b ∈ bs, b < 256) :
    ∀ c ∈ quotePlus bs, c ≠ ' ' ∧ c ≠ '&' ∧ c ≠ '/' ∧ c ≠ '#' := by
  induction bs with
  | nil => intro c hc; simp [quotePlus] at hc
  | cons b rest ih =>
    intro c hc
    rw [quotePlus] at hc
    rcases List.mem_append.mp hc with h1 | h1
    · exact quoteByte_no_reserved b (h b (List.mem_cons_self _ _)) c h1
    · exact ih (fun x hx => h x (List.mem_cons_of_mem _ hx)) c h1

/-- Every UTF-8 byte is below 256. -/
theorem utf8Bytes_lt (c : Char) : ∀ b ∈ utf8Bytes c, b < 256 := by
  have hc : c.toNat < 1114112 := by
    rcases c.valid with h | ⟨h1, h2⟩
    · exact Nat.lt_trans h (by norm_num)
    · exact h2
  intro b hb
  simp only [utf8Bytes] at hb
  split_ifs at hb <;> simp at hb <;> rcases hb with hb | hb | hb | hb <;> omega

/-- Every byte of a string's UTF-8 encoding is below 256. -/
theorem strBytes_lt (s : String) : ∀ b ∈ strBytes s, b < 256 := by
  unfold strBytes
  induction s.data with
  | nil => intro b hb; simp at hb
  | cons c cs ih =>
    intro b hb
    simp only [List.foldr_cons] at hb
    rcases List.mem_append.mp hb with h1 | h1
    · exact utf8Bytes_lt c b h1
    · exact ih b h1

/-- Claim C9: values bound for a query string are percent-encoded per the
`quote_plus` rules — in particular no literal space, `&`, `/` or `#`
survives encoding — and decoding the encoded value recovers the original
(byte-for-byte, hence the original string); `urlencode` applies exactly
this encoding to each key/value pair; whereas the value interpolated into
the `get-protocol-tvl` path segment and the value appended as `get-apr`'s
fixed query pair are inserted verbatim, without any encoding. -/
theorem query_encoding_roundtrip_path_verbatim :
    (∀ bs : List Nat, (∀ b ∈ bs, b < 256) → unquotePlus (quotePlus bs) = some bs)
    ∧ (∀ v : String, unquotePlus (quotePlus (strBytes v)) = some (strBytes v))
    ∧ (∀ bs : List Nat, (∀ b ∈ bs, b < 256) →
        ∀ c ∈ quotePlus bs, c ≠ ' ' ∧ c ≠ '&' ∧ c ≠ '/' ∧ c ≠ '#')
    ∧ (∀ k v : String, urlencode [(k, v)] = quotePlusStr k ++ "=" ++ quotePlusStr v)
    ∧ (∀ (u : String → Option Json) (v : String),
        (handle_call_tool u "get-protocol-tvl" (some [("protocol", v)])).requests =
          ["https://api.llama.fi/tvl/" ++ v])
    ∧ (∀ (u : String → Option Json) (v : String),
        (handle_call_tool u "get-apr" (some [("liquidStakingId", v)])).requests =
          ["https://api.expand.network/liquidstaking/getapr?liquidStakingId=" ++ v]) := by
  refine ⟨unquote_quote_roundtrip, ?_, quotePlus_no_reserved, ?_, ?_, ?_⟩
  · intro v
    exact unquote_quote_roundtrip (strBytes v) (strBytes_lt v)
  · intro k v
    rfl
  · intro u v
    rw [handle_protocol_tvl_some_eq, fetchAndWrap_requests]
  · intro u v
    rw [handle_apr_some_eq, fetchAndWrap_requests]

/-- Witness for C9 on the four reserved bytes (space, `&`, `/`, `#`). -/
theorem query_encoding_roundtrip_witness :
    unquotePlus (quotePlus [32, 38, 47, 35]) = some [32, 38, 47, 35] :=
  query_encoding_roundtrip_path_verbatim.1 [32, 38, 47, 35] (by decide)
